import Mathlib

/-!
Verification of the bluez-alsa SCO audio transport engine (src/sco.c)
against its natural-language specification.

The development shallowly embeds the code of `sco.c`: the transport
lifecycle state machine driven by signals and timer expiries
(`sco_thread`, lines 349-417), the per-iteration poll-descriptor
recomputation (lines 287-336), the SCO socket read/write error policy
(lines 446-460 and 506-520), the PCM read/write branches (lines 536-622),
the connection dispatcher's accept handling (lines 114-162) and the
timer arming arithmetic (`sco_start_timer`, lines 225-234).

The flip-flop buffer (shared/ffb) and the mSBC codec internals are code
of the repository that is not under src/; where a claim needs them they
are modelled from the spec (sections 4.1 and 4.2) and marked as such.
-/

namespace ScoVerify

/-- Transport lifecycle states, `BA_TRANSPORT_SCO_STATE_*`. -/
inductive ScoState where
  | idle
  | running
  | draining
  | linger
  | closing
deriving DecidableEq, Repr

/-- Negotiated HFP codec, `HFP_CODEC_CVSD` / `HFP_CODEC_MSBC`.
The model assumes an `ENABLE_MSBC` build, as the spec does. -/
inductive HfpCodec where
  | cvsd
  | msbc
deriving DecidableEq, Repr

/-- Signals received on the transport thread pipe,
`BA_TRANSPORT_SIGNAL_*`.  `other` stands for any signal value not
matched by a case label in `sco_thread` (the C `default:` branch). -/
inductive BaSignal where
  | ping
  | pcmOpen
  | pcmResume
  | pcmClose
  | pcmSync
  | pcmDrop
  | other
deriving DecidableEq, Repr

/-- The part of `struct ba_transport` that the SCO thread reads and
writes: the SCO socket descriptor `bt_fd` (−1 when detached), the
AG-role bit of the profile mask, the two PCM endpoint descriptors
(−1 when closed), the lifecycle state and the one-shot timer
(`some ms` when armed for `ms` milliseconds, `none` when disarmed). -/
structure ScoTransport where
  bt_fd : Int
  profile_ag : Bool
  spk_fd : Int
  mic_fd : Int
  state : ScoState
  timer : Option Nat
deriving DecidableEq, Repr

/-- Drain timeout, `SCO_DRAIN_TIMEOUT` (milliseconds). -/
def SCO_DRAIN_TIMEOUT : Nat := 250

/-- Linger timeout, `SCO_LINGER_TIMEOUT` (milliseconds). -/
def SCO_LINGER_TIMEOUT : Nat := 1000

/-- Close timeout, `SCO_CLOSE_TIMEOUT` (milliseconds). -/
def SCO_CLOSE_TIMEOUT : Nat := 600

/-- Arming the transport one-shot timer (`sco_start_timer`, state-level
effect of `timerfd_settime` with a non-zero value). -/
def sco_start_timer (t : ScoTransport) (msec : Nat) : ScoTransport :=
  { t with timer := some msec }

/-- Disarming the transport one-shot timer (`sco_cancel_timer`). -/
def sco_cancel_timer (t : ScoTransport) : ScoTransport :=
  { t with timer := none }

/-- Test that a PCM endpoint is closed (`sco_pcm_is_closed`):
`pcm->fd == -1`. -/
def sco_pcm_is_closed (fd : Int) : Bool :=
  fd == -1

/-- Releasing the SCO link (`sco_release_bt` calling `t->release(t)`
under the transport mutex): the only effect visible to this model is
that `bt_fd` becomes −1. -/
def sco_release_bt (t : ScoTransport) : ScoTransport :=
  { t with bt_fd := -1 }

/-- Observable outcome of one signal or timer dispatch in `sco_thread`:
the updated transport, whether control falls through to the rest of the
iteration (`break`, i.e. `proceed = true`) or jumps to the next
iteration (`continue`, `proceed = false`), how many times
`sco_release_bt` was called, whether `ba_transport_pcm_flush` was
called on the speaker PCM, whether the `spk_pcm.synced` condition
variable was signalled, and whether the rate synchronizer was reset
(`asrs.frames = 0`). -/
structure StepOut where
  t : ScoTransport
  proceed : Bool
  releases : Nat
  flushSpk : Bool
  signalSynced : Bool
  asrsReset : Bool
deriving DecidableEq, Repr

/-- Signal dispatch of `sco_thread` (the `switch` on
`ba_transport_thread_recv_signal(th)`, sco.c lines 349-384), embedded
case by case from the source. -/
def sco_signal_dispatch (t : ScoTransport) (sig : BaSignal) : StepOut :=
  match sig with
  | .ping =>
      ⟨t, false, 0, false, false, false⟩
  | .pcmOpen | .pcmResume =>
      ⟨{ sco_cancel_timer t with state := .running }, false, 0, false, false, true⟩
  | .pcmClose =>
      if t.profile_ag && sco_pcm_is_closed t.spk_fd && sco_pcm_is_closed t.mic_fd
          && !(t.state == .linger) then
        ⟨sco_start_timer { t with state := .linger } SCO_LINGER_TIMEOUT,
          false, 0, false, false, false⟩
      else
        ⟨t, false, 0, false, false, false⟩
  | .pcmSync =>
      ⟨sco_start_timer { t with state := .draining } SCO_DRAIN_TIMEOUT,
        true, 0, false, false, false⟩
  | .pcmDrop =>
      ⟨sco_cancel_timer t, false, 0, true, false, false⟩
  | .other =>
      ⟨t, true, 0, false, false, false⟩

/-- Timer-expiry dispatch of `sco_thread` (the `switch` on
`t->sco.state` after a successful read of the timer descriptor,
sco.c lines 394-417), embedded case by case from the source. -/
def sco_timer_dispatch (t : ScoTransport) : StepOut :=
  match t.state with
  | .draining =>
      ⟨{ t with state := .running }, false, 0, false, true, false⟩
  | .linger =>
      if t.profile_ag && sco_pcm_is_closed t.spk_fd && sco_pcm_is_closed t.mic_fd then
        ⟨sco_start_timer (sco_release_bt { t with state := .closing }) SCO_CLOSE_TIMEOUT,
          false, 1, false, false, false⟩
      else
        ⟨t, false, 0, false, false, false⟩
  | .closing =>
      ⟨{ t with state := .idle }, true, 0, false, false, false⟩
  | _ =>
      ⟨t, true, 0, false, false, false⟩

/-- Transition table of spec section 4.4, signal rows, written from the
spec's words: PING continues; PCM_OPEN / PCM_RESUME cancel the timer,
set RUNNING and reset the rate synchronizer; PCM_CLOSE, when the
profile is in AG and both PCMs are closed and the state is not already
LINGER, sets LINGER and arms the linger timer, and otherwise changes
nothing and does not call release; PCM_SYNC sets DRAINING, arms the
drain timer and (per the spec's open-questions note) falls through to
the rest of the iteration; PCM_DROP cancels the timer and flushes the
speaker FIFO without changing state.  A signal outside the table causes
no transition. -/
def spec_signal_table (t : ScoTransport) (sig : BaSignal) : StepOut :=
  match sig with
  | .ping =>
      ⟨t, false, 0, false, false, false⟩
  | .pcmOpen =>
      ⟨{ sco_cancel_timer t with state := .running }, false, 0, false, false, true⟩
  | .pcmResume =>
      ⟨{ sco_cancel_timer t with state := .running }, false, 0, false, false, true⟩
  | .pcmClose =>
      if t.profile_ag && sco_pcm_is_closed t.spk_fd && sco_pcm_is_closed t.mic_fd
          && !(t.state == .linger) then
        ⟨sco_start_timer { t with state := .linger } SCO_LINGER_TIMEOUT,
          false, 0, false, false, false⟩
      else
        ⟨t, false, 0, false, false, false⟩
  | .pcmSync =>
      ⟨sco_start_timer { t with state := .draining } SCO_DRAIN_TIMEOUT,
        true, 0, false, false, false⟩
  | .pcmDrop =>
      ⟨sco_cancel_timer t, false, 0, true, false, false⟩
  | .other =>
      ⟨t, true, 0, false, false, false⟩

/-- Transition table of spec section 4.4, timer-expiry rows, written
from the spec's words: in DRAINING set RUNNING and signal the
`spk_pcm.synced` condvar; in LINGER, if still idle (profile in AG and
both PCMs closed), set CLOSING, call release once and arm the close
timer; in CLOSING set IDLE; in every other state ignore the expiry. -/
def spec_timer_table (t : ScoTransport) : StepOut :=
  match t.state with
  | .draining =>
      ⟨{ t with state := .running }, false, 0, false, true, false⟩
  | .linger =>
      if t.profile_ag && sco_pcm_is_closed t.spk_fd && sco_pcm_is_closed t.mic_fd then
        ⟨sco_start_timer (sco_release_bt { t with state := .closing }) SCO_CLOSE_TIMEOUT,
          false, 1, false, false, false⟩
      else
        ⟨t, false, 0, false, false, false⟩
  | .closing =>
      ⟨{ t with state := .idle }, true, 0, false, false, false⟩
  | _ =>
      ⟨t, true, 0, false, false, false⟩

/-- An event processed by the I/O loop: either a signal taken from the
pipe or an expiry of the one-shot timer. -/
inductive ScoEvent where
  | signal (s : BaSignal)
  | timerExpiry
deriving DecidableEq, Repr

/-- One event step of the code's state machine. -/
def sco_step_event (t : ScoTransport) (e : ScoEvent) : ScoTransport :=
  match e with
  | .signal s => (sco_signal_dispatch t s).t
  | .timerExpiry => (sco_timer_dispatch t).t

/-- One event step of the spec's transition table. -/
def spec_step_event (t : ScoTransport) (e : ScoEvent) : ScoTransport :=
  match e with
  | .signal s => (spec_signal_table t s).t
  | .timerExpiry => (spec_timer_table t).t

/-- Run of the code's state machine over a sequence of events. -/
def sco_run (t : ScoTransport) (evs : List ScoEvent) : ScoTransport :=
  evs.foldl sco_step_event t

/-- Run of the spec's transition table over a sequence of events. -/
def spec_run (t : ScoTransport) (evs : List ScoEvent) : ScoTransport :=
  evs.foldl spec_step_event t

/-- C1: for every sequence of signals and timer expiries, the transport
state stays in {IDLE, RUNNING, DRAINING, LINGER, CLOSING} and every
transition of the code (including the release, flush, condvar and
timer side effects) is exactly the corresponding row of the table in
spec section 4.4. -/
theorem sco_state_machine_follows_spec_table :
    (∀ t sig, sco_signal_dispatch t sig = spec_signal_table t sig) ∧
    (∀ t, sco_timer_dispatch t = spec_timer_table t) ∧
    (∀ t evs, sco_run t evs = spec_run t evs) ∧
    (∀ t evs, (sco_run t evs).state ∈
      [ScoState.idle, ScoState.running, ScoState.draining,
        ScoState.linger, ScoState.closing]) := by
  have hsig : ∀ t sig, sco_signal_dispatch t sig = spec_signal_table t sig := by
    intro t sig
    cases sig <;> rfl
  have htmr : ∀ t, sco_timer_dispatch t = spec_timer_table t := by
    intro t
    rcases t with ⟨bt, ag, spk, mic, st, tm⟩
    cases st <;> rfl
  have hrun : ∀ t evs, sco_run t evs = spec_run t evs := by
    intro t evs
    induction evs generalizing t with
    | nil => rfl
    | cons e es ih =>
        have hstep : sco_step_event t e = spec_step_event t e := by
          cases e with
          | signal s => simp [sco_step_event, spec_step_event, hsig]
          | timerExpiry => simp [sco_step_event, spec_step_event, htmr]
        simp only [sco_run, spec_run, List.foldl_cons] at *
        rw [hstep, ih]
  refine ⟨hsig, htmr, hrun, ?_⟩
  intro t evs
  cases (sco_run t evs).state <;> simp

/-- The four recomputed poll descriptors of one loop iteration:
slot 1 (SCO read), slot 2 (SCO write), slot 3 (speaker PCM read) and
slot 4 (microphone PCM write).  Slots 0 (signal pipe) and 5 (timer)
are fixed and always watched. -/
structure PollFds where
  p1 : Int
  p2 : Int
  p3 : Int
  p4 : Int
deriving DecidableEq, Repr

/-- Per-iteration poll-descriptor recomputation, CVSD branch
(sco.c lines 290-313): after the fresh-start reset to −1,
slot 1 gets `bt_fd` when `ffb_len_in(&bt_in) >= mtu_read`,
slot 2 gets `bt_fd` when `ffb_len_out(&bt_out) >= mtu_write`,
slot 3 gets the speaker PCM fd when `bt_fd != -1` and
`ffb_len_in(&bt_out) >= mtu_write`, and slot 4 gets the microphone
PCM fd when `ffb_len_out(&bt_in) > 0`.  The buffer fill levels are
taken as parameters. -/
def sco_recompute_fds_cvsd (bt_fd spk_fd mic_fd : Int)
    (bt_in_len_in bt_out_len_out bt_out_len_in bt_in_len_out : Nat)
    (mtu_read mtu_write : Nat) : PollFds :=
  { p1 := if bt_in_len_in ≥ mtu_read then bt_fd else -1
    p2 := if bt_out_len_out ≥ mtu_write then bt_fd else -1
    p3 := if bt_fd ≠ -1 ∧ bt_out_len_in ≥ mtu_write then spk_fd else -1
    p4 := if bt_in_len_out > 0 then mic_fd else -1 }

/-- Per-iteration poll-descriptor recomputation, mSBC branch
(sco.c lines 316-328): identical in shape to the CVSD branch but
driven by the byte levels of the mSBC pipeline buffers `dec_data`,
`enc_data`, `enc_pcm` and `dec_pcm` (taken as parameters, after the
per-iteration `msbc_encode` / `msbc_decode` calls have run). -/
def sco_recompute_fds_msbc (bt_fd spk_fd mic_fd : Int)
    (dec_data_blen_in enc_data_blen_out enc_pcm_blen_in dec_pcm_blen_out : Nat)
    (mtu_read mtu_write : Nat) : PollFds :=
  { p1 := if dec_data_blen_in ≥ mtu_read then bt_fd else -1
    p2 := if enc_data_blen_out ≥ mtu_write then bt_fd else -1
    p3 := if bt_fd ≠ -1 ∧ enc_pcm_blen_in ≥ mtu_write then spk_fd else -1
    p4 := if dec_pcm_blen_out > 0 then mic_fd else -1 }

/-- C2: `release()` clears `bt_fd` to −1, and with `bt_fd = -1` the
per-iteration descriptor recomputation yields −1 for the SCO read
slot, the SCO write slot and the speaker PCM slot, in both the CVSD
and the mSBC branch, regardless of buffer fill levels, MTUs and the
PCM descriptors. -/
theorem sco_release_disables_poll_slots :
    (∀ t, (sco_release_bt t).bt_fd = -1) ∧
    (∀ spk mic a b c d mr mw,
      (sco_recompute_fds_cvsd (-1) spk mic a b c d mr mw).p1 = -1 ∧
      (sco_recompute_fds_cvsd (-1) spk mic a b c d mr mw).p2 = -1 ∧
      (sco_recompute_fds_cvsd (-1) spk mic a b c d mr mw).p3 = -1) ∧
    (∀ spk mic a b c d mr mw,
      (sco_recompute_fds_msbc (-1) spk mic a b c d mr mw).p1 = -1 ∧
      (sco_recompute_fds_msbc (-1) spk mic a b c d mr mw).p2 = -1 ∧
      (sco_recompute_fds_msbc (-1) spk mic a b c d mr mw).p3 = -1) := by
  refine ⟨fun t => rfl, ?_, ?_⟩ <;>
    · intro spk mic a b c d mr mw
      refine ⟨?_, ?_, ?_⟩ <;>
        simp [sco_recompute_fds_cvsd, sco_recompute_fds_msbc]

/-- Normalized one-shot timer value computed by `sco_start_timer`
(sco.c lines 225-234): the seconds and nanoseconds fields of
`itimerspec.it_value`, `tv_sec = msec / 1000` and
`tv_nsec = (msec * 1000000) % 1000000000`.  The C computation is over
`long`; for every value that fits (in particular all three timeouts
actually passed, 250, 600 and 1000 ms) it agrees with this natural
number model. -/
def sco_start_timer_value (msec : Nat) : Nat × Nat :=
  (msec / 1000, (msec * 1000000) % 1000000000)

/-- C6: for every non-negative millisecond value, the timespec armed by
`sco_start_timer` is exactly normalized — the nanosecond field is below
10^9 and seconds and nanoseconds together represent exactly `msec`
milliseconds; contrary to the spec's suspicion this also holds for
inputs of one second and more, including the actual 1000 ms linger
timeout. -/
theorem sco_start_timer_value_normalized :
    (∀ msec : Nat,
      (sco_start_timer_value msec).1 = msec / 1000 ∧
      (sco_start_timer_value msec).2 = (msec * 1000000) % 1000000000 ∧
      (sco_start_timer_value msec).2 < 1000000000 ∧
      (sco_start_timer_value msec).1 * 1000 +
        (sco_start_timer_value msec).2 / 1000000 = msec) ∧
    sco_start_timer_value SCO_LINGER_TIMEOUT = (1, 0) := by
  constructor
  · intro msec
    refine ⟨rfl, rfl, ?_, ?_⟩
    · exact Nat.mod_lt _ (by omega)
    · simp only [sco_start_timer_value]
      omega
  · rfl

/-- Reading one signal from the transport signal pipe: the loop calls
`ba_transport_thread_recv_signal(th)` once per iteration, which takes
the oldest pending signal and leaves the rest for later wake-ups. -/
def sco_consume_signal : List BaSignal → Option BaSignal × List BaSignal
  | [] => (none, [])
  | s :: rest => (some s, rest)

/-- C7: each I/O-loop iteration consumes at most one signal from the
pipe, and among the recognized signals only PCM_SYNC falls through
(`break`) to the timer handling and data movement of the same
iteration; PING, PCM_OPEN, PCM_RESUME, PCM_CLOSE and PCM_DROP all end
the iteration immediately (`continue`). -/
theorem sco_signal_consumption_and_sync_fallthrough :
    (∀ q : List BaSignal, q.length ≤ (sco_consume_signal q).2.length + 1) ∧
    (∀ t, (sco_signal_dispatch t .ping).proceed = false) ∧
    (∀ t, (sco_signal_dispatch t .pcmOpen).proceed = false) ∧
    (∀ t, (sco_signal_dispatch t .pcmResume).proceed = false) ∧
    (∀ t, (sco_signal_dispatch t .pcmClose).proceed = false) ∧
    (∀ t, (sco_signal_dispatch t .pcmDrop).proceed = false) ∧
    (∀ t, (sco_signal_dispatch t .pcmSync).proceed = true) := by
  refine ⟨?_, fun t => rfl, fun t => rfl, fun t => rfl, ?_, fun t => rfl, fun t => rfl⟩
  · intro q
    cases q <;> simp [sco_consume_signal]
  · intro t
    simp only [sco_signal_dispatch]
    split <;> rfl

/-- Linux errno value `EINTR`. -/
def EINTR : Nat := 4

/-- Linux errno value `EIO`. -/
def EIO : Nat := 5

/-- Linux errno value `EAGAIN`. -/
def EAGAIN : Nat := 11

/-- Linux errno value `ECONNABORTED`. -/
def ECONNABORTED : Nat := 103

/-- Linux errno value `ECONNRESET`. -/
def ECONNRESET : Nat := 104

/-- Result of one attempt of a `read` or `write` system call on the
SCO socket: the returned length and the value of `errno` afterwards
(`errno` is zeroed by the loop before each attempt, so a return of 0
leaves it 0). -/
structure IoResult where
  len : Int
  err : Nat
deriving DecidableEq, Repr

/-- Observable outcome of the SCO socket read step (sco.c lines
446-460) and, identically structured, the SCO socket write step
(lines 506-520): how many times `sco_release_bt` was called, whether
an error was logged, whether the loop exited (`goto fail`), the
successfully transferred length that the subsequent `ffb_seek` /
`ffb_shift` receives (`none` when the step failed and the buffer
cursors stay untouched), and whether the rest of the iteration was
skipped (`continue`). -/
structure ScoIoOut where
  releases : Nat
  logged : Bool
  exits : Bool
  completed : Option Nat
  skipRest : Bool
deriving DecidableEq, Repr

/-- SCO socket I/O step over the sequence of system-call attempts
(sco.c `retry_sco_read` lines 446-460 and `retry_sco_write` lines
506-520): when the call returns at most 0, `errno = EINTR` retries in
place (`goto retry`), `errno` of 0, ECONNABORTED or ECONNRESET calls
`sco_release_bt` once and continues the loop, and any other `errno`
logs the error and continues the loop; a positive return reaches the
following `ffb_seek` / `ffb_shift`.  The loop blocks until the call
returns, so the attempt list is never exhausted in practice; an empty
list yields the neutral outcome. -/
def sco_io_step : List IoResult → ScoIoOut
  | [] => ⟨0, false, false, none, false⟩
  | r :: rest =>
      if r.len ≤ 0 then
        if r.err = EINTR then
          sco_io_step rest
        else if r.err = 0 ∨ r.err = ECONNABORTED ∨ r.err = ECONNRESET then
          ⟨1, false, false, none, true⟩
        else
          ⟨0, true, false, none, true⟩
      else
        ⟨0, false, false, some r.len.toNat, false⟩

/-- C3: for every SCO socket read or write, EINTR attempts are retried
in place; a return of 0 (errno still 0 after the pre-call zeroing) or
an error of ECONNABORTED or ECONNRESET calls `release()` exactly once
and skips the rest of the iteration without exiting the loop; any
other error is logged and the loop keeps running with the flip-flop
buffer cursors untouched. -/
theorem sco_socket_io_error_policy
    (eintrs : List IoResult) (r : IoResult) (rest : List IoResult)
    (he : ∀ x ∈ eintrs, x.len ≤ 0 ∧ x.err = EINTR) :
    (sco_io_step (eintrs ++ r :: rest) = sco_io_step (r :: rest)) ∧
    (r.len ≤ 0 → (r.err = 0 ∨ r.err = ECONNABORTED ∨ r.err = ECONNRESET) →
      sco_io_step (r :: rest) = ⟨1, false, false, none, true⟩) ∧
    (r.len ≤ 0 → r.err ≠ EINTR → r.err ≠ 0 → r.err ≠ ECONNABORTED →
      r.err ≠ ECONNRESET →
      sco_io_step (r :: rest) = ⟨0, true, false, none, true⟩) ∧
    (0 < r.len →
      sco_io_step (r :: rest) = ⟨0, false, false, some r.len.toNat, false⟩) := by
  refine ⟨?_, ?_, ?_, ?_⟩
  · induction eintrs with
    | nil => rfl
    | cons x xs ih =>
        have hx := he x (by simp)
        have hxs : ∀ y ∈ xs, y.len ≤ 0 ∧ y.err = EINTR := by
          intro y hy
          exact he y (by simp [hy])
        simpa [sco_io_step, hx.1, hx.2] using ih hxs
  · intro hlen herr
    have hne : r.err ≠ EINTR := by
      rcases herr with h | h | h <;> simp [h, EINTR, ECONNABORTED, ECONNRESET]
    simp [sco_io_step, hlen, hne, herr]
  · intro hlen h1 h2 h3 h4
    simp [sco_io_step, hlen, h1, h2, h3, h4]
  · intro hlen
    have h : ¬ r.len ≤ 0 := by omega
    simp [sco_io_step, h]

/-- Witness for C3: one EINTR retry followed by ECONNRESET releases
the link exactly once without exiting, and concrete instances of the
other-error and success branches behave as stated. -/
theorem sco_socket_io_error_policy_witness :
    (∀ x ∈ [IoResult.mk (-1) EINTR], x.len ≤ 0 ∧ x.err = EINTR) ∧
    (sco_io_step [⟨-1, EINTR⟩, ⟨-1, ECONNRESET⟩] = sco_io_step [⟨-1, ECONNRESET⟩]) ∧
    ((-1 : Int) ≤ 0 → ((104 : Nat) = 0 ∨ (104 : Nat) = ECONNABORTED ∨ (104 : Nat) = ECONNRESET) →
      sco_io_step [⟨-1, ECONNRESET⟩] = ⟨1, false, false, none, true⟩) ∧
    ((-1 : Int) ≤ 0 → (104 : Nat) ≠ EINTR → (104 : Nat) ≠ 0 → (104 : Nat) ≠ ECONNABORTED →
      (104 : Nat) ≠ ECONNRESET →
      sco_io_step [⟨-1, ECONNRESET⟩] = ⟨0, true, false, none, true⟩) ∧
    (0 < (-1 : Int) →
      sco_io_step [⟨-1, ECONNRESET⟩] = ⟨0, false, false, some (-1 : Int).toNat, false⟩) := by
  refine ⟨by decide, ?_⟩
  exact sco_socket_io_error_policy [⟨-1, EINTR⟩] ⟨-1, ECONNRESET⟩ [] (by decide)

/-- Outcome of the `poll` result check at the top of each iteration
(sco.c lines 340-345): on a return of at most 0, EINTR continues with
the next iteration and any other errno logs the error and exits the
loop (`goto fail`); otherwise the iteration proceeds. -/
inductive PollOutcome where
  | continueLoop
  | exitLoop
  | proceed
deriving DecidableEq, Repr

/-- Check of the `poll` return value (sco.c lines 340-345). -/
def sco_poll_check (ret : Int) (err : Nat) : PollOutcome :=
  if ret ≤ 0 then
    if err = EINTR then .continueLoop else .exitLoop
  else
    .proceed

/-- Result of reading the expiration count from the timer descriptor
(sco.c line 389): the count, or a failing `read`. -/
inductive TimerReadOutcome where
  | ok (expirations : Nat)
  | fail
deriving DecidableEq, Repr

/-- Observable outcome of the timer-descriptor handling (sco.c lines
386-418): whether the loop exited (`goto fail`), whether
`sco_cancel_timer` was called on the failure path, and the state
dispatch performed on success. -/
structure TimerCheckOut where
  exits : Bool
  cancelled : Bool
  out : StepOut
deriving DecidableEq, Repr

/-- Timer-descriptor handling of `sco_thread` (lines 386-418): a
failing read of the expiration count cancels the timer and exits the
loop; a successful read dispatches on the transport state. -/
def sco_timer_check (t : ScoTransport) : TimerReadOutcome → TimerCheckOut
  | .fail => ⟨true, true, ⟨sco_cancel_timer t, false, 0, false, false, false⟩⟩
  | .ok _ => ⟨false, false, sco_timer_dispatch t⟩

/-- Counterexample for C10: a `poll` failure with errno EIO — an error
in the I/O loop other than the timer-descriptor read failure — also
terminates the transport I/O thread (`goto fail`) instead of being
logged and the thread kept alive, so the timer read failure is not the
only loop error that exits. -/
theorem sco_poll_error_also_exits_loop :
    sco_poll_check (-1) EIO = PollOutcome.exitLoop ∧ EIO ≠ EINTR := by
  decide

/-- C10 (amended): if reading the expiration count from the timer
descriptor fails, the loop cancels the timer and the I/O thread
terminates through the failure path; the SCO socket and PCM data-path
errors are logged and keep the thread alive, but a non-EINTR `poll`
failure terminates the thread as well. -/
theorem sco_timer_read_failure_exits :
    (∀ t, (sco_timer_check t .fail).exits = true ∧
      (sco_timer_check t .fail).cancelled = true ∧
      (sco_timer_check t .fail).out.t.timer = none) ∧
    (∀ rs, (sco_io_step rs).exits = false) ∧
    (∀ (ret : Int) (err : Nat), ret ≤ 0 → err ≠ EINTR →
      sco_poll_check ret err = .exitLoop) := by
  refine ⟨fun t => ⟨rfl, rfl, rfl⟩, ?_, ?_⟩
  · intro rs
    induction rs with
    | nil => rfl
    | cons r rest ih =>
        simp only [sco_io_step]
        split
        · split
          · exact ih
          · split <;> rfl
        · rfl
  · intro ret err hret herr
    simp [sco_poll_check, hret, herr]

/-- Witness for C10: the amended statement instantiated at a concrete
non-EINTR poll failure. -/
theorem sco_timer_read_failure_exits_witness :
    ((-1 : Int) ≤ 0 ∧ EIO ≠ EINTR) ∧ sco_poll_check (-1) EIO = .exitLoop := by
  refine ⟨by decide, ?_⟩
  exact sco_timer_read_failure_exits.2.2 (-1) EIO (by decide) (by decide)

/-- Observable outcome of the microphone PCM write branch of
`sco_thread` (sco.c lines 583-622): whether an error was logged and
with which errno, whether a PCM_CLOSE signal was synthesized, and the
argument with which the subsequent `ffb_shift` is invoked (in bytes
for CVSD, in samples for mSBC).  There is no `continue` in this
branch, so the shift switch is reached on every path. -/
structure MicWriteOut where
  logged : Bool
  loggedErrno : Option Nat
  closeSignaled : Bool
  shiftCalled : Bool
  shiftArg : Int
deriving DecidableEq, Repr

/-- Microphone PCM write step (sco.c lines 603-620): the return value
of `ba_transport_pcm_write` is checked with `<= 0`; inside that check
`samples == -1` logs a FIFO write error with the current errno —
whatever it is, EAGAIN included — and `samples == 0` synthesizes a
PCM_CLOSE signal; then control falls through to the codec switch that
calls `ffb_shift` with `samples * sizeof(int16_t)` (CVSD, on `bt_in`)
or `samples` (mSBC, on `dec_pcm`), also when `samples` is 0 or −1. -/
def sco_mic_write_step (codec : HfpCodec) (samples : Int) (errno : Nat) :
    MicWriteOut :=
  let logged := if samples ≤ 0 then samples == -1 else false
  let closeSignaled := if samples ≤ 0 then samples == 0 else false
  let arg : Int :=
    match codec with
    | .cvsd => samples * 2
    | .msbc => samples
  { logged := logged
    loggedErrno := if logged then some errno else none
    closeSignaled := closeSignaled
    shiftCalled := true
    shiftArg := arg }

/-- Counterexample for C5: when `ba_transport_pcm_write` returns −1
with errno EAGAIN, the microphone write branch logs a FIFO write error
(there is no EAGAIN exemption, unlike the speaker read branch) and
still reaches the `ffb_shift` call, with the non-positive argument
−1 · sizeof(int16_t) = −2 — so neither the no-log claim nor the
shift-only-when-positive claim holds. -/
theorem sco_mic_write_eagain_logged :
    (sco_mic_write_step .cvsd (-1) EAGAIN).logged = true ∧
    (sco_mic_write_step .cvsd (-1) EAGAIN).loggedErrno = some EAGAIN ∧
    (sco_mic_write_step .cvsd (-1) EAGAIN).shiftCalled = true ∧
    (sco_mic_write_step .cvsd (-1) EAGAIN).shiftArg = -2 := by
  decide

/-- C5 (amended): in the microphone PCM write branch a return of 0
synthesizes a PCM_CLOSE signal, a return of −1 logs an error with the
current errno regardless of its value (EAGAIN included), and in every
case — failure or success — control reaches the `ffb_shift` call with
argument `samples * 2` bytes (CVSD) or `samples` samples (mSBC), so
the input buffer cursors are left alone only because the argument is 0
when the write returned 0; for −1 the shift receives a negative
argument (which the C size_t conversion wraps). -/
theorem sco_mic_write_step_behavior :
    ∀ (samples : Int) (errno : Nat),
      ((sco_mic_write_step .cvsd samples errno).closeSignaled = (samples == 0)) ∧
      ((sco_mic_write_step .cvsd samples errno).logged = (samples == -1)) ∧
      ((sco_mic_write_step .cvsd samples errno).loggedErrno =
        if samples == -1 then some errno else none) ∧
      ((sco_mic_write_step .cvsd samples errno).shiftCalled = true) ∧
      ((sco_mic_write_step .cvsd samples errno).shiftArg = samples * 2) ∧
      ((sco_mic_write_step .msbc samples errno).shiftArg = samples) := by
  intro samples errno
  by_cases h : samples ≤ 0
  · have hc : (if samples ≤ 0 then samples == -1 else false) = (samples == -1) := by
      simp [h]
    refine ⟨by simp [sco_mic_write_step, h], by simp [sco_mic_write_step, h], ?_,
      rfl, rfl, rfl⟩
    simp [sco_mic_write_step, hc]
  · have h0 : (samples == 0) = false := by
      simp only [beq_eq_false_iff_ne, ne_eq]
      omega
    have h1 : (samples == -1) = false := by
      simp only [beq_eq_false_iff_ne, ne_eq]
      omega
    refine ⟨by simp [sco_mic_write_step, h, h0], by simp [sco_mic_write_step, h, h1],
      ?_, rfl, rfl, rfl⟩
    simp [sco_mic_write_step, h, h1]

/-- Externally determined outcomes of the two deferred-setup steps of
the dispatcher accept handling: whether the `setsockopt(BT_VOICE)`
call succeeds when attempted, and whether the one-byte `read` on the
accepted descriptor succeeds. -/
structure AcceptEnv where
  voice_ok : Bool
  read1_ok : Bool
deriving DecidableEq, Repr

/-- Observable outcome of one accepted connection in the dispatcher
(sco.c lines 137-162, after the device and transport lookups have
succeeded): whether `setsockopt(BT_VOICE, TRANSPARENT)` was attempted,
whether the one-byte authorization read was attempted, whether the
transport was attached (`sco_refresh_bt`), whether the new descriptor
was closed on the cleanup path, and how many PING signals were sent. -/
structure AcceptOut where
  voiceSetAttempted : Bool
  byteReadAttempted : Bool
  attached : Bool
  fdClosed : Bool
  pings : Nat
deriving DecidableEq, Repr

/-- Deferred-setup part of the dispatcher accept loop in an
ENABLE_MSBC build (sco.c lines 137-162): the guard
`t->type.codec == HFP_CODEC_MSBC && setsockopt(...) == -1`
short-circuits, so the voice option is attempted only for mSBC and a
failure jumps to cleanup; the one-byte `read` that authorizes the
deferred connection is then performed unconditionally, and its failure
also jumps to cleanup; on success the transport is attached, the local
descriptor is handed over (set to −1, so cleanup does not close it)
and a PING is sent to both PCM signal channels. -/
def sco_dispatcher_accept (codec : HfpCodec) (env : AcceptEnv) : AcceptOut :=
  if codec == .msbc && !env.voice_ok then
    { voiceSetAttempted := true, byteReadAttempted := false,
      attached := false, fdClosed := true, pings := 0 }
  else if !env.read1_ok then
    { voiceSetAttempted := codec == .msbc, byteReadAttempted := true,
      attached := false, fdClosed := true, pings := 0 }
  else
    { voiceSetAttempted := codec == .msbc, byteReadAttempted := true,
      attached := true, fdClosed := false, pings := 2 }

/-- Counterexample for C4: for a transport whose negotiated codec is
CVSD (not mSBC), with both setup steps succeeding, the dispatcher
still performs the one-byte read on the accepted descriptor — the
read is not conditioned on the codec, so the claimed "if and only if
mSBC" fails in the only-if direction. -/
theorem sco_dispatcher_byte_read_not_msbc_only :
    (sco_dispatcher_accept .cvsd ⟨true, true⟩).byteReadAttempted = true ∧
    HfpCodec.cvsd ≠ HfpCodec.msbc := by
  decide

/-- C4 (amended): in the dispatcher accept loop of an mSBC-enabled
build, setting VOICE = TRANSPARENT on the new descriptor is attempted
if and only if the negotiated codec is mSBC, while the one-byte read
is performed whenever the voice step did not fail (in particular
always for CVSD); on failure of either step the new descriptor is
closed and the loop continues without attaching and without signals,
and on success the transport is attached and two PING signals are
delivered. -/
theorem sco_dispatcher_accept_steps :
    ∀ (codec : HfpCodec) (env : AcceptEnv),
      ((sco_dispatcher_accept codec env).voiceSetAttempted = (codec == .msbc)) ∧
      ((sco_dispatcher_accept codec env).byteReadAttempted =
        !(codec == .msbc && !env.voice_ok)) ∧
      ((sco_dispatcher_accept codec env).attached =
        (!(codec == .msbc && !env.voice_ok) && env.read1_ok)) ∧
      ((sco_dispatcher_accept codec env).fdClosed =
        !(sco_dispatcher_accept codec env).attached) ∧
      ((sco_dispatcher_accept codec env).pings =
        if (sco_dispatcher_accept codec env).attached then 2 else 0) := by
  intro codec env
  rcases env with ⟨vo, r1⟩
  cases codec <;> cases vo <;> cases r1 <;> decide

/-- Flip-flop buffer cursors.  Modelled from the spec: the buffer
implementation (shared/ffb) is code of the repository not under src/;
spec section 4.1 describes a contiguous arena of capacity `cap` with
cursors `head ≤ tail ≤ cap`. -/
structure FFB where
  cap : Nat
  head : Nat
  tail : Nat
deriving DecidableEq, Repr

/-- Writable space at the tail.  Modelled from the spec:
`len_in() = C - tail` (section 4.1). -/
def ffb_len_in (b : FFB) : Nat := b.cap - b.tail

/-- Readable bytes.  Modelled from the spec:
`len_out() = tail - head` (section 4.1). -/
def ffb_len_out (b : FFB) : Nat := b.tail - b.head

/-- Discarding the buffer content.  Modelled from the spec:
`rewind()` resets both cursors to zero (section 4.1). -/
def ffb_rewind (b : FFB) : FFB := { b with head := 0, tail := 0 }

/-- Committing externally written data.  Modelled from the spec:
`seek(n)` advances `tail` by `n` (section 4.1). -/
def ffb_seek (b : FFB) (n : Nat) : FFB := { b with tail := b.tail + n }

/-- Buffer preparation before the SCO socket read (sco.c lines
430-444): in the CVSD branch, if the microphone PCM descriptor is
closed the input buffer `bt_in` is rewound before the read; in the
mSBC branch the read goes straight to `dec_data.tail` with no rewind.
The buffer passed is `bt_in` for CVSD and `dec_data` for mSBC. -/
def sco_read_prep (codec : HfpCodec) (mic_fd : Int) (buf : FFB) : FFB :=
  match codec with
  | .cvsd => if mic_fd == -1 then ffb_rewind buf else buf
  | .msbc => buf

/-- Buffer commit after a successful SCO socket read (sco.c lines
462-477): only when the microphone PCM descriptor is open is
`ffb_seek(len)` applied to the branch's input buffer (`bt_in` for
CVSD, `dec_data` for mSBC); otherwise the received data is
discarded. -/
def sco_read_post (codec : HfpCodec) (mic_fd : Int) (buf : FFB) (len : Nat) : FFB :=
  if mic_fd != -1 then
    match codec with
    | .cvsd => ffb_seek buf len
    | .msbc => ffb_seek buf len
  else
    buf

/-- Counterexample for C8: in the mSBC branch with the microphone PCM
closed, the codec input buffer is not rewound before the read — its
tail stays at 5 where a rewind would reset it to 0 — so the claim that
the rewind happens in both branches fails. -/
theorem sco_msbc_read_no_rewind :
    sco_read_prep .msbc (-1) ⟨128, 0, 5⟩ = { cap := 128, head := 0, tail := 5 } ∧
    ffb_rewind ⟨128, 0, 5⟩ = { cap := 128, head := 0, tail := 0 } := by
  decide

/-- C8 (amended): whenever the SCO socket read step runs with the
microphone PCM closed, the input buffer is rewound before the read in
the CVSD branch only — the mSBC branch never rewinds `dec_data` — and
in both branches a successful read advances the buffer tail by
`seek(len)` exactly when the microphone descriptor is open, the data
being discarded otherwise. -/
theorem sco_read_rewind_seek_policy (mic_fd : Int) (buf : FFB) (len : Nat) :
    (mic_fd = -1 →
      sco_read_prep .cvsd mic_fd buf = ffb_rewind buf ∧
      sco_read_prep .msbc mic_fd buf = buf) ∧
    (mic_fd ≠ -1 →
      sco_read_prep .cvsd mic_fd buf = buf ∧
      sco_read_prep .msbc mic_fd buf = buf) ∧
    (mic_fd ≠ -1 →
      (sco_read_post .cvsd mic_fd buf len).tail = buf.tail + len ∧
      (sco_read_post .msbc mic_fd buf len).tail = buf.tail + len) ∧
    (mic_fd = -1 →
      sco_read_post .cvsd mic_fd buf len = buf ∧
      sco_read_post .msbc mic_fd buf len = buf) := by
  refine ⟨?_, ?_, ?_, ?_⟩
  · intro h
    subst h
    exact ⟨rfl, rfl⟩
  · intro h
    constructor <;> simp [sco_read_prep, h]
  · intro h
    constructor <;> simp [sco_read_post, ffb_seek, h]
  · intro h
    subst h
    exact ⟨rfl, rfl⟩

/-- Witness for C8: the amended statement instantiated with the
microphone closed (descriptor −1) and with it open (descriptor 7). -/
theorem sco_read_rewind_seek_policy_witness :
    (((-1 : Int) = -1 →
      sco_read_prep .cvsd (-1) ⟨128, 2, 5⟩ = ffb_rewind ⟨128, 2, 5⟩ ∧
      sco_read_prep .msbc (-1) ⟨128, 2, 5⟩ = ⟨128, 2, 5⟩) ∧
     ((-1 : Int) ≠ -1 →
      sco_read_prep .cvsd (-1) ⟨128, 2, 5⟩ = ⟨128, 2, 5⟩ ∧
      sco_read_prep .msbc (-1) ⟨128, 2, 5⟩ = ⟨128, 2, 5⟩) ∧
     ((-1 : Int) ≠ -1 →
      (sco_read_post .cvsd (-1) ⟨128, 2, 5⟩ 48).tail = 5 + 48 ∧
      (sco_read_post .msbc (-1) ⟨128, 2, 5⟩ 48).tail = 5 + 48) ∧
     ((-1 : Int) = -1 →
      sco_read_post .cvsd (-1) ⟨128, 2, 5⟩ 48 = ⟨128, 2, 5⟩ ∧
      sco_read_post .msbc (-1) ⟨128, 2, 5⟩ 48 = ⟨128, 2, 5⟩)) ∧
    ((7 : Int) ≠ -1 ∧
      (sco_read_post .cvsd 7 ⟨128, 2, 5⟩ 48).tail = 5 + 48 ∧
      (sco_read_post .msbc 7 ⟨128, 2, 5⟩ 48).tail = 5 + 48) := by
  constructor
  · exact sco_read_rewind_seek_policy (-1) ⟨128, 2, 5⟩ 48
  · have h := (sco_read_rewind_seek_policy 7 ⟨128, 2, 5⟩ 48).2.2.1 (by decide)
    exact ⟨by decide, h⟩

/-- The two mSBC bookkeeping flags of `sco_thread`: the local
`initialize_msbc` request flag (true at thread start, line 259) and
the pipeline's own `initialized` field (`struct esco_msbc`, false at
thread start, line 257).  Modelled from the spec where the pipeline
internals are concerned: `msbc_init` (msbc.c, not under src/)
allocates the encoder, decoder and buffers and leaves the pipeline
initialized (spec sections 3 and 4.2). -/
structure MsbcIterState where
  initialize_msbc : Bool
  msbc_initialized : Bool
deriving DecidableEq, Repr

/-- Lazy-initialization block at the top of each loop iteration
(sco.c lines 293-301): when the request flag is set and the codec is
mSBC, the flag is cleared and `msbc_init` runs (the returned Bool
records that it was invoked in this iteration, before any
encode/decode use). -/
def sco_msbc_init_block (s : MsbcIterState) (codec : HfpCodec) :
    MsbcIterState × Bool :=
  if s.initialize_msbc && codec == .msbc then
    (⟨false, true⟩, true)
  else
    (s, false)

/-- Head of one loop iteration as far as the mSBC flags are concerned:
the lazy-initialization block (lines 293-301) followed by the mSBC
case of the descriptor-selection switch, whose last step (lines
329-333) marks the pipeline for reinitialization when both PCM
descriptors are closed or the SCO socket is detached.  Returns the
flag state at the `poll` call together with whether `msbc_init` ran
this iteration. -/
def sco_msbc_iter_head (s : MsbcIterState) (codec : HfpCodec)
    (bt_fd spk_fd mic_fd : Int) : MsbcIterState × Bool :=
  let p := sco_msbc_init_block s codec
  if codec == .msbc && ((spk_fd == -1 && mic_fd == -1) || bt_fd == -1) then
    ({ p.1 with initialize_msbc := true }, p.2)
  else
    (p.1, p.2)

/-- Counterexample for C9: starting from the thread's initial flag
state (`initialize_msbc = true`, `initialized = false`, lines 257-259)
with codec mSBC and the SCO socket detached (`bt_fd = -1`, both PCMs
closed), the very first iteration runs `msbc_init` and reaches its
`poll` with the pipeline's initialized flag true even though `bt_fd`
is −1 — the claimed invariant "initialized is false whenever bt_fd is
−1 or both PCMs are closed" is violated in a reachable state; what
the code maintains instead is the reinitialization request flag. -/
theorem sco_msbc_initialized_while_detached :
    (sco_msbc_iter_head ⟨true, false⟩ .msbc (-1) (-1) (-1)).1.msbc_initialized
      = true ∧
    (sco_msbc_iter_head ⟨true, false⟩ .msbc (-1) (-1) (-1)).1.initialize_msbc
      = true := by
  decide

/-- C9 (amended): with codec mSBC, whenever an iteration observes the
SCO socket detached or both PCM endpoints closed it sets the
`initialize_msbc` request flag, and whenever that flag is set at the
start of an iteration `msbc_init` runs before the pipeline is used
again (and clears the request) — so the pipeline is reinitialized
before first use after any detach or full PCM close, although the
`initialized` field itself may be true while `bt_fd` is −1. -/
theorem sco_msbc_reinit_before_use (s : MsbcIterState) (bt spk mic : Int) :
    (((spk == -1 && mic == -1) || bt == -1) = true →
      (sco_msbc_iter_head s .msbc bt spk mic).1.initialize_msbc = true) ∧
    (s.initialize_msbc = true →
      (sco_msbc_iter_head s .msbc bt spk mic).2 = true ∧
      (sco_msbc_init_block s .msbc).1.msbc_initialized = true ∧
      (sco_msbc_init_block s .msbc).1.initialize_msbc = false) := by
  constructor
  · intro h
    simp [sco_msbc_iter_head, h]
  · intro h
    refine ⟨?_, ?_, ?_⟩ <;>
      · simp only [sco_msbc_iter_head, sco_msbc_init_block, h]
        split <;> simp_all

/-- Witness for C9: the amended statement instantiated at the thread's
initial flag state with the SCO socket detached. -/
theorem sco_msbc_reinit_before_use_witness :
    ((((-1 : Int) == -1 && (-1 : Int) == -1) || (-1 : Int) == -1) = true ∧
      (MsbcIterState.mk true false).initialize_msbc = true) ∧
    ((sco_msbc_iter_head ⟨true, false⟩ .msbc (-1) (-1) (-1)).1.initialize_msbc
        = true ∧
      (sco_msbc_iter_head ⟨true, false⟩ .msbc (-1) (-1) (-1)).2 = true) := by
  refine ⟨by decide, ?_, ?_⟩
  · exact (sco_msbc_reinit_before_use ⟨true, false⟩ (-1) (-1) (-1)).1 (by decide)
  · exact ((sco_msbc_reinit_before_use ⟨true, false⟩ (-1) (-1) (-1)).2 rfl).1

end ScoVerify
